import Mathlib

/-!
# Miro board monitoring bot: a shallow embedding of `main.go`

The Go program polls a Miro board, compares successive widget snapshots and
posts a Telegram message when an editing burst has ended.  The embedding makes
every interaction with the outside world an explicit argument (the value of an
environment variable, the outcome of an HTTP request) and every effect an
explicit part of the result (events, channel contents, the registry).

Conventions:
* a Go `error` is `Option GoError`, `none` being `nil`;
* a Go call either returns, panics, or blocks for ever: `CallResult`;
* `int64` chat ids are integers, no arithmetic is performed on them;
* output written with `log` is not modelled.
-/

namespace MiroBot

/-! ## Go values -/

/-- One byte. -/
abbrev Byte := Fin 256

/-- A Go `[]byte`: either the nil slice or a slice with contents. -/
inductive GoBytes where
  | nil
  | slice (data : List Byte)
  deriving DecidableEq, Repr

/-- The bytes held by a slice (none for the nil slice). -/
def GoBytes.bytes : GoBytes → List Byte
  | .nil => []
  | .slice d => d

/-- Length of a slice, `len(b)`. -/
def GoBytes.len (b : GoBytes) : Nat := b.bytes.length

/-- Message of a Go `error` value. -/
abbrev GoError := String

/-- How a Go call ends: it returns a value, panics, or blocks for ever. -/
inductive CallResult (α : Type) where
  | returned (v : α)
  | panicked (msg : String)
  | blocked
  deriving DecidableEq, Repr

/-- How a Go call that cannot block ends: it returns a value or panics. -/
inductive MayPanic (α : Type) where
  | returned (v : α)
  | panicked (msg : String)
  deriving DecidableEq, Repr

/-- Lexicographic three-way comparison of byte sequences. -/
def compareBytes : List Byte → List Byte → Int
  | [], [] => 0
  | [], _ :: _ => -1
  | _ :: _, [] => 1
  | a :: as, b :: bs =>
    if a < b then -1 else if b < a then 1 else compareBytes as bs

/-- Go standard library `bytes.Compare`: 0 if a == b, -1 if a < b, +1 if a > b,
lexicographically; a nil argument is equivalent to an empty slice. -/
def bytesCompare (a b : GoBytes) : Int := compareBytes a.bytes b.bytes

/-! ## Environment -/

/-- The two environment variables read by the program; `os.Getenv` yields the
empty string for an unset variable. -/
structure Env where
  TOKEN_MIRO : String
  BOARD_ID : String
  deriving DecidableEq, Repr

/-- Source `getTokenMiro`. -/
def getTokenMiro (env : Env) : Except GoError String :=
  let token := env.TOKEN_MIRO
  if token = "" then
    .error "environmental variable TOKEN_MIRO does not set"
  else
    .ok token

/-- Source `getBoardID`. -/
def getBoardID (env : Env) : Except GoError String :=
  let boardId := env.BOARD_ID
  if boardId = "" then
    .error "environmental variable BOARD_ID does not set"
  else
    .ok boardId

/-! ## Observable effects -/

/-- Source `timeToSleep`: ten minutes as a `time.Duration`, in nanoseconds. -/
def timeToSleep : Nat := 10 * (60 * 1000000000)

/-- Effects a goroutine performs on the outside world. -/
inductive Event where
  | sleep (d : Nat)
  | fetchBoard (boardId token : String)
  | fetchWidgets (boardId token : String)
  | post (chatID : Int) (text : String)
  deriving DecidableEq, Repr

/-- Whether an event is an outbound Telegram message. -/
def Event.isPost : Event → Bool
  | .post _ _ => true
  | _ => false

/-! ## Miro API calls -/

/-- The dynamic type of a value decoded into `interface{}`. -/
inductive JsonValue where
  | null
  | bool (b : Bool)
  | number (n : Int)
  | str (s : String)
  | composite
  deriving DecidableEq, Repr

/-- Outcome of the board metadata request of `getBoardName`: the request
fails, the body does not decode into a map, or it decodes into `data`. -/
inductive BoardResponse where
  | requestFailed
  | decodeFailed
  | decoded (data : List (String × JsonValue))
  deriving DecidableEq, Repr

/-- Go map index `data[key]` on a `map[string]interface{}`; none is the nil
interface obtained for a missing key. -/
def mapIndex (data : List (String × JsonValue)) (key : String) : Option JsonValue :=
  List.lookup key data

/-- Go type assertion `x.(string)`: panics unless the dynamic type is string. -/
def assertString : Option JsonValue → MayPanic String
  | some (.str s) => .returned s
  | _ => .panicked "interface conversion: interface \x7b\x7d is not string"

/-- Source `getBoardName`. -/
def getBoardName (_id _token : String) (resp : BoardResponse) : MayPanic (String × String) :=
  match resp with
  | .requestFailed => .returned ("", "")
  | .decodeFailed => .returned ("", "")
  | .decoded data =>
    match assertString (mapIndex data "name") with
    | .returned name =>
      match assertString (mapIndex data "viewLink") with
      | .returned link => .returned (name, link)
      | .panicked msg => .panicked msg
    | .panicked msg => .panicked msg

/-- Outcome of the widgets request of `getWidgets`: the request fails, or a
response arrives and `ioutil.ReadAll` yields `body` (its error is discarded). -/
inductive WidgetsResponse where
  | requestFailed
  | body (b : GoBytes)
  deriving DecidableEq, Repr

/-- Source `getWidgets`. -/
def getWidgets (_id _token : String) (resp : WidgetsResponse) : MayPanic GoBytes :=
  match resp with
  | .requestFailed => .panicked "Could not make request"
  | .body b => .returned b

/-! ## Telegram -/

/-- Source `Chat`. -/
structure Chat where
  ID : Int
  deriving DecidableEq, Repr

/-- Source `Message`, without the `FromUser` field, which the program never
reads or sets; omitted fields of a literal hold their zero value. -/
structure Message where
  ChatID : Int := 0
  Text : String := ""
  Chat : Chat := ⟨0⟩
  deriving DecidableEq, Repr

/-- Source `webhookMessage`. -/
structure webhookMessage where
  Message : Message
  deriving DecidableEq, Repr

/-- Outcome of the `http.Post` of `sendMessage`. -/
inductive PostResult where
  | failed (err : GoError)
  | response (statusCode : Nat) (status : String)
  deriving DecidableEq, Repr

/-- Source `sendMessage`: marshalling a `Message` cannot fail, so the POST is
always attempted, and anything but status 200 is an error. -/
def sendMessage (reqBody : Message) (r : PostResult) : List Event × Option GoError :=
  ([Event.post reqBody.ChatID reqBody.Text],
    match r with
    | .failed err => some err
    | .response statusCode status =>
      if statusCode ≠ 200 then some ("unexpected status " ++ status) else none)

/-! ## Registry and channels -/

/-- Source `Board`; `StopWorker` is a reference into the channel store and
`none` is the nil channel. -/
structure Board where
  Name : String
  Link : String
  StopWorker : Option Nat
  deriving DecidableEq, Repr

/-- The zero value of `Board`, obtained when indexing a map at a missing key. -/
def Board.zero : Board := ⟨"", "", none⟩

/-- Source `boards`, a `map[string]Board`. -/
abbrev Registry := List (String × Board)

/-- Go map index `boards[k]`. -/
def boardsIndex (boards : Registry) (k : String) : Board :=
  (List.lookup k boards).getD Board.zero

/-- Go map assignment `boards[k] = b`. -/
def boardsAssign : Registry → String → Board → Registry
  | [], k, b => [(k, b)]
  | (k0, b0) :: rest, k, b =>
    if k0 = k then (k, b) :: rest else (k0, b0) :: boardsAssign rest k b

/-- A buffered `chan bool`. -/
structure Chan where
  buf : List Bool
  cap : Nat
  closed : Bool
  deriving DecidableEq, Repr

/-- Go `make(chan bool, n)`. -/
def Chan.make (n : Nat) : Chan := ⟨[], n, false⟩

/-! ## The worker -/

/-- Source `sendNotification`. -/
def sendNotification (boards : Registry) (boardId : String) (chatID : Int)
    (r : PostResult) : List Event × Option GoError :=
  let boardName := (boardsIndex boards boardId).Name
  let link := (boardsIndex boards boardId).Link
  let reqBody : Message :=
    { ChatID := chatID, Text := "On board " ++ boardName ++ " changes were made: " ++ link }
  sendMessage reqBody r

/-- The change detector of the worker: `bytes.Compare(old, new) != 0`. -/
def haveChangesNow (widgetsOld widgetsNew : GoBytes) : Bool :=
  let res := bytesCompare widgetsOld widgetsNew
  res != 0

/-- The variables a worker carries from one loop iteration to the next. -/
structure LoopState where
  haveChangesBefore : Bool
  widgetsOld : GoBytes
  deriving DecidableEq, Repr

/-- What the outside world answers during one loop iteration. -/
structure TickInput where
  widgets : WidgetsResponse
  post : PostResult
  deriving DecidableEq, Repr

/-- Where a worker stands after a loop iteration. -/
inductive Next where
  | loop (s : LoopState)
  | returned (err : Option GoError)
  | panicked (msg : String)
  deriving DecidableEq, Repr

/-- Result of one loop iteration: the quit channel afterwards, the effects
performed, and where the worker stands. -/
structure IterResult where
  quit : Chan
  events : List Event
  next : Next
  deriving DecidableEq, Repr

/-- The default branch of the select in `notifyOnChangesWorker`. -/
def tickBody (boards : Registry) (boardId token : String) (chatID : Int)
    (s : LoopState) (inp : TickInput) : List Event × Next :=
  match getWidgets boardId token inp.widgets with
  | .panicked msg => ([Event.sleep timeToSleep, Event.fetchWidgets boardId token], .panicked msg)
  | .returned widgetsNew =>
    let now := haveChangesNow s.widgetsOld widgetsNew
    if s.haveChangesBefore && !now then
      match sendNotification boards boardId chatID inp.post with
      | (evs, some err) =>
        ([Event.sleep timeToSleep, Event.fetchWidgets boardId token] ++ evs, .returned (some err))
      | (evs, none) =>
        ([Event.sleep timeToSleep, Event.fetchWidgets boardId token] ++ evs, .loop ⟨now, widgetsNew⟩)
    else
      ([Event.sleep timeToSleep, Event.fetchWidgets boardId token], .loop ⟨now, widgetsNew⟩)

/-- One iteration of the `for` loop of `notifyOnChangesWorker`.  The receive
case of the select is ready when the channel holds a value or is closed;
closing a closed channel panics. -/
def loopIter (boards : Registry) (boardId token : String) (chatID : Int)
    (quit : Chan) (s : LoopState) (inp : TickInput) : IterResult :=
  match quit.buf with
  | _ :: rest =>
    if quit.closed then
      ⟨{ quit with buf := rest }, [], .panicked "close of closed channel"⟩
    else
      ⟨{ quit with buf := rest, closed := true }, [], .returned none⟩
  | [] =>
    if quit.closed then
      ⟨quit, [], .panicked "close of closed channel"⟩
    else
      let r := tickBody boards boardId token chatID s inp
      ⟨quit, r.1, r.2⟩

/-- A run of a worker: the quit channel at the end, the effects before the
loop, the effects of each loop iteration in order, and where it stands. -/
structure WorkerRun where
  quit : Chan
  startup : List Event
  iters : List (List Event)
  final : Next
  deriving DecidableEq, Repr

/-- The `for` loop of `notifyOnChangesWorker`, one iteration per input. -/
def workerLoop (boards : Registry) (boardId token : String) (chatID : Int) :
    Chan → LoopState → List TickInput → List (List Event) × Chan × Next
  | quit, s, [] => ([], quit, .loop s)
  | quit, s, inp :: rest =>
    let r := loopIter boards boardId token chatID quit s inp
    match r.next with
    | .loop s1 =>
      let run := workerLoop boards boardId token chatID r.quit s1 rest
      (r.events :: run.1, run.2)
    | other => ([r.events], r.quit, other)

/-- Source `notifyOnChangesWorker`, running without interference from other
goroutines: `init` answers the fetch before the loop and `ticks` answer the
loop iterations in order. -/
def notifyOnChangesWorker (boards : Registry) (boardId token : String) (quit : Chan)
    (chatID : Int) (init : WidgetsResponse) (ticks : List TickInput) : WorkerRun :=
  match getWidgets boardId token init with
  | .returned widgetsOld =>
    let run := workerLoop boards boardId token chatID quit ⟨false, widgetsOld⟩ ticks
    ⟨run.2.1, [Event.fetchWidgets boardId token], run.1, run.2.2⟩
  | .panicked msg => ⟨quit, [Event.fetchWidgets boardId token], [], .panicked msg⟩

/-- Whether each loop iteration of a run sent a notification, in order. -/
def WorkerRun.notified (run : WorkerRun) : List Bool :=
  run.iters.map (fun evs => evs.any Event.isPost)

/-- The ticks (numbered from 1) of a run at which a notification was sent. -/
def WorkerRun.notifiedTicks (run : WorkerRun) : List Nat :=
  (List.range run.iters.length).filterMap
    (fun k => if run.notified.getD k false then some (k + 1) else none)

/-! ## The process: registry, channels and goroutines -/

/-- Where a worker goroutine stands: created by the go statement and not yet
past its first fetch, inside the loop, returned, or panicked. -/
inductive WorkerStatus where
  | spawned
  | looping
  | returned (err : Option GoError)
  | panicked (msg : String)
  deriving DecidableEq, Repr

/-- A goroutine running `notifyOnChangesWorker`: its arguments, its loop
variables and where it stands. -/
structure Worker where
  boardId : String
  token : String
  quit : Nat
  chatID : Int
  vars : LoopState
  status : WorkerStatus
  deriving DecidableEq, Repr

/-- A worker is active while it has neither returned nor panicked. -/
def Worker.active (k : Worker) : Bool :=
  match k.status with
  | .spawned => true
  | .looping => true
  | .returned _ => false
  | .panicked _ => false

/-- State of the process: the global `boards`, the channels created so far,
the worker goroutines spawned so far, the effects performed so far, and
whether the process was terminated by a panic in a worker goroutine. -/
structure World where
  boards : Registry
  chans : List Chan
  workers : List Worker
  trace : List Event
  crashed : Bool
  deriving DecidableEq, Repr

/-- The process right after start-up. -/
def World.init : World := ⟨[], [], [], [], false⟩

/-- Number of active workers bound to a board id. -/
def activeWorkers (w : World) (boardId : String) : Nat :=
  (w.workers.filter (fun k => k.active && decide (k.boardId = boardId))).length

/-- Outcome of a channel send. -/
inductive SendResult where
  | sent (chans : List Chan)
  | panicked (msg : String)
  | blocked
  deriving DecidableEq, Repr

/-- Go channel send `ch <- v`: on a nil channel it blocks for ever, on a closed
channel it panics, on a full buffer it blocks, otherwise the value is queued.
A reference outside the channel store does not occur, every reference being
created together with its channel. -/
def chanSend (chans : List Chan) (ch : Option Nat) (v : Bool) : SendResult :=
  match ch with
  | none => .blocked
  | some i =>
    match chans[i]? with
    | none => .blocked
    | some c =>
      if c.closed then .panicked "send on closed channel"
      else if c.buf.length < c.cap then
        .sent (chans.set i { c with buf := c.buf ++ [v] })
      else .blocked

/-- Source `startMonitoringBoard`. -/
def startMonitoringBoard (env : Env) (resp : BoardResponse) (chatID : Int) (w : World) :
    CallResult (Option GoError) × World :=
  match getBoardID env with
  | .error err => (.returned (some err), w)
  | .ok boardId =>
    match getTokenMiro env with
    | .error err => (.returned (some err), w)
    | .ok token =>
      match getBoardName boardId token resp with
      | .panicked msg =>
        (.panicked msg, { w with trace := w.trace ++ [Event.fetchBoard boardId token] })
      | .returned (boardName, link) =>
        let stop := w.chans.length
        let board : Board := { Name := boardName, Link := link, StopWorker := some stop }
        (.returned none,
          { w with
            boards := boardsAssign w.boards boardId board
            chans := w.chans ++ [Chan.make 2]
            workers := w.workers ++ [⟨boardId, token, stop, chatID, ⟨false, .nil⟩, .spawned⟩]
            trace := w.trace ++ [Event.fetchBoard boardId token] })

/-- Source `stopMonitoringBoard`.  A send that blocks ends the call here; the
completion of a send that waited on a full buffer (it would go on to the
metadata fetch and touch neither the registry nor the workers) is not
modelled. -/
def stopMonitoringBoard (env : Env) (resp : BoardResponse) (_chatID : Int) (w : World) :
    CallResult (Option GoError) × World :=
  match getBoardID env with
  | .error err => (.returned (some err), w)
  | .ok boardId =>
    match chanSend w.chans (boardsIndex w.boards boardId).StopWorker true with
    | .blocked => (.blocked, w)
    | .panicked msg => (.panicked msg, w)
    | .sent chans1 =>
      match getTokenMiro env with
      | .error err => (.returned (some err), { w with chans := chans1 })
      | .ok token =>
        match getBoardName boardId token resp with
        | .panicked msg =>
          (.panicked msg,
            { w with chans := chans1, trace := w.trace ++ [Event.fetchBoard boardId token] })
        | .returned _ =>
          (.returned none,
            { w with chans := chans1, trace := w.trace ++ [Event.fetchBoard boardId token] })

/-- Text sent by `showHelp`. -/
def helpText : String :=
  "Bot will inform you about any changes on a board.\nTo start monitoring a board type /start and send the board ID in the next message.\nTo stop monitoring a board type /stop and send the board ID in the next message."

/-- Source `showHelp`. -/
def showHelp (chatID : Int) (r : PostResult) : List Event × Option GoError :=
  let reqBody : Message := { ChatID := chatID, Text := helpText }
  sendMessage reqBody r

/-- The three operations the handler can invoke. -/
inductive Command where
  | start
  | stop
  | help
  deriving DecidableEq, Repr

/-- What one call of `tryToHandleMessage` did: the operations it invoked with
their chat id, how the call ended, and the process state afterwards. -/
structure HandlerRun where
  calls : List (Command × Int)
  result : CallResult Unit
  world : World
  deriving DecidableEq, Repr

/-- Forget the value a call returned. -/
def CallResult.discard {α : Type} : CallResult α → CallResult Unit
  | .returned _ => .returned ()
  | .panicked msg => .panicked msg
  | .blocked => .blocked

/-- Source `tryToHandleMessage`; `decode` stands for the JSON decoding of the
request body into a `webhookMessage`, none being a decoding error. -/
def tryToHandleMessage (decode : List Byte → Option webhookMessage) (env : Env)
    (resp : BoardResponse) (post : PostResult) (req : List Byte) (w : World) : HandlerRun :=
  match decode req with
  | none => ⟨[], .returned (), w⟩
  | some body =>
    if body.Message.Text = "" then
      ⟨[], .returned (), w⟩
    else
      let chatID := body.Message.Chat.ID
      if body.Message.Text = "/start" then
        let r := startMonitoringBoard env resp chatID w
        ⟨[(.start, chatID)], r.1.discard, r.2⟩
      else if body.Message.Text = "/stop" then
        let r := stopMonitoringBoard env resp chatID w
        ⟨[(.stop, chatID)], r.1.discard, r.2⟩
      else if body.Message.Text = "/help" then
        let r := showHelp chatID post
        ⟨[(.help, chatID)], .returned (), { w with trace := w.trace ++ r.1 }⟩
      else
        ⟨[], .returned (), w⟩

/-- Status and loop variables of a worker after a loop iteration. -/
def Worker.advance (k : Worker) : Next → Worker
  | .loop s => { k with vars := s }
  | .returned err => { k with status := .returned err }
  | .panicked msg => { k with status := .panicked msg }

/-- Whether a loop iteration ended in a panic. -/
def Next.isPanic : Next → Bool
  | .panicked _ => true
  | _ => false

/-- Worker goroutine `i` runs up to its next visit of the loop head: a spawned
worker performs the fetch before the loop, a looping worker performs one loop
iteration.  A panic in a worker goroutine is not recovered and terminates the
process. -/
def workerStep (w : World) (i : Nat) (inp : TickInput) : World :=
  match w.workers[i]? with
  | none => w
  | some k =>
    match k.status with
    | .spawned =>
      match getWidgets k.boardId k.token inp.widgets with
      | .returned widgetsOld =>
        { w with
          workers := w.workers.set i { k with vars := ⟨false, widgetsOld⟩, status := .looping }
          trace := w.trace ++ [Event.fetchWidgets k.boardId k.token] }
      | .panicked msg =>
        { w with
          workers := w.workers.set i { k with status := .panicked msg }
          trace := w.trace ++ [Event.fetchWidgets k.boardId k.token]
          crashed := true }
    | .looping =>
      match w.chans[k.quit]? with
      | none => w
      | some q =>
        let r := loopIter w.boards k.boardId k.token k.chatID q k.vars inp
        { w with
          chans := w.chans.set k.quit r.quit
          workers := w.workers.set i (k.advance r.next)
          trace := w.trace ++ r.events
          crashed := w.crashed || r.next.isPanic }
    | .returned _ => w
    | .panicked _ => w

/-- What can happen next in the process: a start command, a stop command, or
a step of worker goroutine `i`. -/
inductive Step where
  | start (env : Env) (resp : BoardResponse) (chatID : Int)
  | stop (env : Env) (resp : BoardResponse) (chatID : Int)
  | worker (i : Nat) (inp : TickInput)
  deriving DecidableEq, Repr

/-- One step of the process; nothing happens once it has crashed.  Commands
run in goroutines of the HTTP server, which recovers their panics, so a
command that panics leaves the process running. -/
def step (w : World) (s : Step) : World :=
  if w.crashed then w
  else
    match s with
    | .start env resp chatID => (startMonitoringBoard env resp chatID w).2
    | .stop env resp chatID => (stopMonitoringBoard env resp chatID w).2
    | .worker i inp => workerStep w i inp

/-- The process state after a sequence of steps. -/
def runSteps (w : World) (steps : List Step) : World :=
  steps.foldl step w

/-! ## Vocabulary of the statements -/

/-- Tick inputs in which every fetch succeeds with the given snapshot and
every notification is delivered (status 200). -/
def deliveredTicks (status : String) (snaps : List GoBytes) : List TickInput :=
  snaps.map (fun b => ⟨.body b, .response 200 status⟩)

/-- The snapshot number `i` of a sequence, number 0 being the initial one. -/
def snapshotAt (snaps : List GoBytes) (i : Nat) : GoBytes := snaps.getD i .nil

/-- The `differs` value of tick `i ≥ 1`: snapshot `i` against snapshot `i - 1`. -/
def differs (snaps : List GoBytes) (i : Nat) : Bool :=
  haveChangesNow (snapshotAt snaps (i - 1)) (snapshotAt snaps i)

/-- A worker started on a fresh `make(chan bool, 2)` that nobody sends to, with
every fetch succeeding and every notification delivered: `s0` is the snapshot
fetched before the loop, `snaps` the snapshots fetched at ticks 1, 2, ... -/
def quietRun (boards : Registry) (boardId token : String) (chatID : Int) (status : String)
    (s0 : GoBytes) (snaps : List GoBytes) : WorkerRun :=
  notifyOnChangesWorker boards boardId token (Chan.make 2) chatID (.body s0)
    (deliveredTicks status snaps)

/-- Whether a run sent a notification at tick `i ≥ 1`. -/
def WorkerRun.notifiedAt (run : WorkerRun) (i : Nat) : Bool :=
  run.notified.getD (i - 1) false

/-! ## Change detector -/

theorem compareBytes_eq_zero (a : List Byte) : ∀ b, compareBytes a b = 0 ↔ a = b := by
  induction a with
  | nil => intro b; cases b <;> simp [compareBytes]
  | cons x xs ih =>
    intro b
    cases b with
    | nil => simp [compareBytes]
    | cons y ys =>
      simp only [compareBytes, List.cons.injEq]
      split_ifs with h1 h2
      · simp; intro h; exact absurd (h ▸ h1) (lt_irrefl _)
      · simp; intro h; exact absurd (h ▸ h2) (lt_irrefl _)
      · rw [ih ys]
        have : x = y := le_antisymm (not_lt.mp h2) (not_lt.mp h1)
        simp [this]

theorem haveChangesNow_eq_false (a b : GoBytes) :
    haveChangesNow a b = false ↔ a.bytes = b.bytes := by
  simp [haveChangesNow, bytesCompare, compareBytes_eq_zero]

theorem haveChangesNow_eq_true (a b : GoBytes) :
    haveChangesNow a b = true ↔ a.bytes ≠ b.bytes := by
  simp [haveChangesNow, bytesCompare, compareBytes_eq_zero]

theorem haveChangesNow_self (a : GoBytes) : haveChangesNow a a = false :=
  (haveChangesNow_eq_false a a).2 rfl

theorem haveChangesNow_comm (a b : GoBytes) : haveChangesNow a b = haveChangesNow b a := by
  cases h : haveChangesNow b a
  · rw [haveChangesNow_eq_false] at h ⊢; exact h.symm
  · rw [haveChangesNow_eq_true] at h ⊢; exact fun e => h e.symm

/-- C9. The change detector is byte-exact equality: `haveChangesNow old new` is
false exactly when the two snapshots have the same length and the same byte at
every position, true exactly when they differ in length or in some byte, and
false for a nil against an empty snapshot. -/
theorem haveChangesNow_byte_exact (old new : GoBytes) :
    (haveChangesNow old new = false ↔
      old.len = new.len ∧ ∀ i, i < old.len → old.bytes[i]? = new.bytes[i]?) ∧
    (haveChangesNow old new = true ↔
      old.len ≠ new.len ∨
        ∃ i, i < old.len ∧ i < new.len ∧ old.bytes[i]? ≠ new.bytes[i]?) ∧
    haveChangesNow .nil (.slice []) = false ∧
    haveChangesNow (.slice []) .nil = false := by
  have key : old.bytes = new.bytes ↔
      old.len = new.len ∧ ∀ i, i < old.len → old.bytes[i]? = new.bytes[i]? := by
    constructor
    · intro h; simp [GoBytes.len, h]
    · rintro ⟨hl, hi⟩
      apply List.ext_getElem? 
      intro i
      by_cases hlt : i < old.len
      · exact hi i hlt
      · have h1 : old.bytes.length ≤ i := Nat.le_of_not_lt hlt
        have h2 : new.bytes.length ≤ i := by
          have : new.len ≤ i := hl ▸ h1
          exact this
        rw [List.getElem?_eq_none h1, List.getElem?_eq_none h2]
  refine ⟨?_, ?_, ?_, ?_⟩
  · rw [haveChangesNow_eq_false, key]
  · rw [haveChangesNow_eq_true, Ne, key]
    constructor
    · intro h
      by_cases hl : old.len = new.len
      · right
        by_contra hne
        apply h
        refine ⟨hl, fun i hi => ?_⟩
        by_contra hd
        exact hne ⟨i, hi, hl ▸ hi, hd⟩
      · exact Or.inl hl
    · rintro (hl | ⟨i, hi, _, hd⟩) ⟨hl2, hall⟩
      · exact hl hl2
      · exact hd (hall i hi)
  · rw [haveChangesNow_eq_false]; rfl
  · rw [haveChangesNow_eq_false]; rfl

/-! ## The worker loop on successful ticks -/

theorem loopIter_open (boards : Registry) (boardId token : String) (chatID : Int)
    (cap : Nat) (s : LoopState) (inp : TickInput) :
    loopIter boards boardId token chatID ⟨[], cap, false⟩ s inp =
      ⟨⟨[], cap, false⟩, (tickBody boards boardId token chatID s inp).1,
        (tickBody boards boardId token chatID s inp).2⟩ := by
  simp [loopIter]

theorem sendMessage_events (m : Message) (r : PostResult) :
    (sendMessage m r).1 = [Event.post m.ChatID m.Text] := rfl

theorem sendMessage_delivered (m : Message) (status : String) :
    (sendMessage m (.response 200 status)).2 = none := by
  simp [sendMessage]

theorem sendNotification_delivered (boards : Registry) (boardId : String) (chatID : Int)
    (status : String) :
    ∃ text, sendNotification boards boardId chatID (.response 200 status) =
      ([Event.post chatID text], none) := by
  refine ⟨"On board " ++ (boardsIndex boards boardId).Name ++ " changes were made: " ++
    (boardsIndex boards boardId).Link, ?_⟩
  simp only [sendNotification]
  exact Prod.ext (sendMessage_events _ _) (sendMessage_delivered _ _)

theorem tickBody_delivered (boards : Registry) (boardId token : String) (chatID : Int)
    (s : LoopState) (status : String) (b : GoBytes) :
    (tickBody boards boardId token chatID s ⟨.body b, .response 200 status⟩).2 =
        .loop ⟨haveChangesNow s.widgetsOld b, b⟩ ∧
    (tickBody boards boardId token chatID s ⟨.body b, .response 200 status⟩).1.any
        Event.isPost = (s.haveChangesBefore && !haveChangesNow s.widgetsOld b) := by
  obtain ⟨text, ht⟩ := sendNotification_delivered boards boardId chatID status
  simp only [tickBody, getWidgets]
  split_ifs with h
  · rw [ht]
    simp [Event.isPost, h]
  · simp only [Bool.not_eq_true] at h
    simp [Event.isPost, h]

theorem workerLoop_delivered_cons (boards : Registry) (boardId token : String) (chatID : Int)
    (cap : Nat) (s : LoopState) (status : String) (b : GoBytes) (bs : List GoBytes) :
    workerLoop boards boardId token chatID ⟨[], cap, false⟩ s (deliveredTicks status (b :: bs)) =
      ((tickBody boards boardId token chatID s ⟨.body b, .response 200 status⟩).1 ::
        (workerLoop boards boardId token chatID ⟨[], cap, false⟩
          ⟨haveChangesNow s.widgetsOld b, b⟩ (deliveredTicks status bs)).1,
       (workerLoop boards boardId token chatID ⟨[], cap, false⟩
          ⟨haveChangesNow s.widgetsOld b, b⟩ (deliveredTicks status bs)).2) := by
  simp only [deliveredTicks, List.map_cons, workerLoop, loopIter_open]
  rw [(tickBody_delivered boards boardId token chatID s status b).1]

theorem workerLoop_delivered_length (boards : Registry) (boardId token : String) (chatID : Int)
    (cap : Nat) (status : String) (bs : List GoBytes) :
    ∀ s : LoopState,
      (workerLoop boards boardId token chatID ⟨[], cap, false⟩ s
        (deliveredTicks status bs)).1.length = bs.length ∧
      (workerLoop boards boardId token chatID ⟨[], cap, false⟩ s
        (deliveredTicks status bs)).2.1 = ⟨[], cap, false⟩ ∧
      ∃ s1, (workerLoop boards boardId token chatID ⟨[], cap, false⟩ s
        (deliveredTicks status bs)).2.2 = .loop s1 := by
  induction bs with
  | nil => intro s; exact ⟨rfl, rfl, s, rfl⟩
  | cons b bs ih =>
    intro s
    rw [workerLoop_delivered_cons]
    obtain ⟨h1, h2, h3⟩ := ih ⟨haveChangesNow s.widgetsOld b, b⟩
    exact ⟨by simp [h1], h2, h3⟩

/-- On successful ticks, iteration `k` (from 0) notifies exactly when the flag
carried into it is set and the fetched snapshot equals the previous one. -/
theorem workerLoop_delivered_notified (boards : Registry) (boardId token : String)
    (chatID : Int) (cap : Nat) (status : String) (bs : List GoBytes) :
    ∀ (s : LoopState) (k : Nat), k < bs.length →
      (((workerLoop boards boardId token chatID ⟨[], cap, false⟩ s
          (deliveredTicks status bs)).1.map (fun evs => evs.any Event.isPost)).getD k false) =
        ((if k = 0 then s.haveChangesBefore
          else haveChangesNow (snapshotAt (s.widgetsOld :: bs) (k - 1))
                (snapshotAt (s.widgetsOld :: bs) k)) &&
          !haveChangesNow (snapshotAt (s.widgetsOld :: bs) k)
            (snapshotAt (s.widgetsOld :: bs) (k + 1))) := by
  induction bs with
  | nil => intro s k hk; simp at hk
  | cons b bs ih =>
    intro s k hk
    rw [workerLoop_delivered_cons]
    cases k with
    | zero =>
      simp [snapshotAt, (tickBody_delivered boards boardId token chatID s status b).2]
    | succ k =>
      have hk1 : k < bs.length := by simpa using hk
      have := ih ⟨haveChangesNow s.widgetsOld b, b⟩ k hk1
      simp only [List.map_cons, List.getD_cons_succ, this]
      cases k with
      | zero => simp [snapshotAt]
      | succ j => simp [snapshotAt]

theorem quietRun_iters (boards : Registry) (boardId token : String) (chatID : Int)
    (status : String) (s0 : GoBytes) (ss : List GoBytes) :
    (quietRun boards boardId token chatID status s0 ss).iters =
      (workerLoop boards boardId token chatID ⟨[], 2, false⟩ ⟨false, s0⟩
        (deliveredTicks status ss)).1 := rfl

theorem quietRun_final (boards : Registry) (boardId token : String) (chatID : Int)
    (status : String) (s0 : GoBytes) (ss : List GoBytes) :
    (quietRun boards boardId token chatID status s0 ss).final =
      (workerLoop boards boardId token chatID ⟨[], 2, false⟩ ⟨false, s0⟩
        (deliveredTicks status ss)).2.2 := rfl

theorem quietRun_notifiedAt (boards : Registry) (boardId token : String) (chatID : Int)
    (status : String) (s0 : GoBytes) (ss : List GoBytes) (i : Nat) (h1 : 1 ≤ i)
    (h2 : i ≤ ss.length) :
    (quietRun boards boardId token chatID status s0 ss).notifiedAt i =
      ((if i = 1 then false else differs (s0 :: ss) (i - 1)) && !differs (s0 :: ss) i) := by
  obtain ⟨k, rfl⟩ : ∃ k, i = k + 1 := ⟨i - 1, by omega⟩
  have hk : k < ss.length := by omega
  have := workerLoop_delivered_notified boards boardId token chatID 2 status ss ⟨false, s0⟩ k hk
  simp only [WorkerRun.notifiedAt, WorkerRun.notified, quietRun_iters, Nat.add_sub_cancel, this,
    differs]
  simp

theorem notifiedTicks_eq_nil (run : WorkerRun)
    (h : ∀ i, 1 ≤ i → i ≤ run.iters.length → run.notifiedAt i = false) :
    run.notifiedTicks = [] := by
  simp only [WorkerRun.notifiedTicks, List.filterMap_eq_nil_iff, List.mem_range]
  intro k hk
  have := h (k + 1) (by omega) (by omega)
  simp only [WorkerRun.notifiedAt, Nat.add_sub_cancel] at this
  simpa using this

/-- C1. Falling-edge law.  A worker that receives no stop signal, whose fetches
succeed with snapshots s1..sn after the initial snapshot s0 and whose
notifications are all delivered, performs all n ticks and is still looping;
it notifies at tick i exactly when i ≥ 2, differs[i-1] is true and differs[i]
is false.  Hence it never notifies at the first tick, nor on a sequence whose
differs values are all true or all false, and on the snapshots
[A, A, B, B, A, A] with A different from B it notifies exactly at ticks 3 and 5. -/
theorem falling_edge_law (boards : Registry) (boardId token : String) (chatID : Int)
    (status : String) (s0 : GoBytes) (ss : List GoBytes) :
    (quietRun boards boardId token chatID status s0 ss).iters.length = ss.length ∧
    (∃ st, (quietRun boards boardId token chatID status s0 ss).final = .loop st) ∧
    (∀ i, 1 ≤ i → i ≤ ss.length →
      ((quietRun boards boardId token chatID status s0 ss).notifiedAt i = true ↔
        2 ≤ i ∧ differs (s0 :: ss) (i - 1) = true ∧ differs (s0 :: ss) i = false)) ∧
    (quietRun boards boardId token chatID status s0 ss).notifiedAt 1 = false ∧
    ((∀ i, 1 ≤ i → i ≤ ss.length → differs (s0 :: ss) i = true) →
      (quietRun boards boardId token chatID status s0 ss).notifiedTicks = []) ∧
    ((∀ i, 1 ≤ i → i ≤ ss.length → differs (s0 :: ss) i = false) →
      (quietRun boards boardId token chatID status s0 ss).notifiedTicks = []) ∧
    (∀ A B : GoBytes, haveChangesNow A B = true →
      (quietRun boards boardId token chatID status A [A, B, B, A, A]).notifiedTicks = [3, 5] ∧
      ((quietRun boards boardId token chatID status A [A, B, B, A, A]).notified.filter
        (fun b => b)).length = 2) := by
  have hlen := workerLoop_delivered_length boards boardId token chatID 2 status ss ⟨false, s0⟩
  have hiters : (quietRun boards boardId token chatID status s0 ss).iters.length = ss.length := by
    rw [quietRun_iters]; exact hlen.1
  refine ⟨hiters, ?_, ?_, ?_, ?_, ?_, ?_⟩
  · rw [quietRun_final]; exact hlen.2.2
  · intro i h1 h2
    rw [quietRun_notifiedAt _ _ _ _ _ _ _ i h1 h2]
    by_cases hi : i = 1
    · subst hi; simp
    · have : 2 ≤ i := by omega
      simp [hi, this]
  · cases ss with
    | nil => rfl
    | cons b bs =>
      rw [quietRun_notifiedAt _ _ _ _ _ _ _ 1 (le_refl 1) (by simp)]
      simp
  · intro h
    apply notifiedTicks_eq_nil
    intro i h1 h2
    rw [hiters] at h2
    rw [quietRun_notifiedAt _ _ _ _ _ _ _ i h1 h2, h i h1 h2]
    simp
  · intro h
    apply notifiedTicks_eq_nil
    intro i h1 h2
    rw [hiters] at h2
    rw [quietRun_notifiedAt _ _ _ _ _ _ _ i h1 h2]
    by_cases hi : i = 1
    · simp [hi]
    · rw [h (i - 1) (by omega) (by omega)]
      simp [hi]
  · intro A B hAB
    have hBA : haveChangesNow B A = true := by rw [haveChangesNow_comm]; exact hAB
    have hn : (quietRun boards boardId token chatID status A [A, B, B, A, A]).notified =
        [false, false, true, false, true] := by
      simp only [WorkerRun.notified, quietRun_iters, workerLoop_delivered_cons, List.map_cons,
        tickBody_delivered, haveChangesNow_self, hAB, hBA]
      simp [deliveredTicks, workerLoop]
    have hl : (quietRun boards boardId token chatID status A [A, B, B, A, A]).iters.length = 5 := by
      have := congrArg List.length hn
      simpa [WorkerRun.notified] using this
    constructor
    · simp only [WorkerRun.notifiedTicks, hn, hl]
      decide
    · rw [hn]; decide

/-- Witness: the scenario with A = [1] and B = [2]. -/
theorem falling_edge_law_witness :
    (quietRun [("b", ⟨"N", "L", some 0⟩)] "b" "t" 7 "200 OK" (.slice [1])
      [.slice [1], .slice [2], .slice [2], .slice [1], .slice [1]]).notifiedTicks = [3, 5] :=
  ((falling_edge_law [("b", ⟨"N", "L", some 0⟩)] "b" "t" 7 "200 OK" (.slice [1])
    []).2.2.2.2.2.2 (.slice [1]) (.slice [2]) (by decide)).1

/-! ## One loop iteration -/

theorem loopIter_pending (boards : Registry) (boardId token : String) (chatID : Int)
    (quit : Chan) (s : LoopState) (inp : TickInput) (hopen : quit.closed = false)
    (hbuf : quit.buf ≠ []) :
    loopIter boards boardId token chatID quit s inp =
      ⟨{ quit with buf := quit.buf.tail, closed := true }, [], .returned none⟩ := by
  obtain ⟨buf, cap, closed⟩ := quit
  cases buf with
  | nil => exact absurd rfl hbuf
  | cons v rest =>
    simp only at hopen
    subst hopen
    simp [loopIter]

theorem loopIter_idle (boards : Registry) (boardId token : String) (chatID : Int)
    (quit : Chan) (s : LoopState) (inp : TickInput) (hopen : quit.closed = false)
    (hbuf : quit.buf = []) :
    loopIter boards boardId token chatID quit s inp =
      ⟨quit, (tickBody boards boardId token chatID s inp).1,
        (tickBody boards boardId token chatID s inp).2⟩ := by
  obtain ⟨buf, cap, closed⟩ := quit
  simp only at hopen hbuf
  subst hopen hbuf
  simp [loopIter]

theorem tickBody_events (boards : Registry) (boardId token : String) (chatID : Int)
    (s : LoopState) (inp : TickInput) :
    ∃ evs, (tickBody boards boardId token chatID s inp).1 =
        Event.sleep timeToSleep :: Event.fetchWidgets boardId token :: evs ∧
      evs.all Event.isPost = true ∧ evs.length ≤ 1 := by
  obtain ⟨widgets, post⟩ := inp
  cases widgets with
  | requestFailed => exact ⟨[], by simp [tickBody, getWidgets]⟩
  | body b =>
    simp only [tickBody, getWidgets]
    split_ifs with h
    · obtain ⟨text, he⟩ : ∃ text,
          (sendNotification boards boardId chatID post).1 = [Event.post chatID text] :=
        ⟨_, sendMessage_events _ _⟩
      rcases hsn : sendNotification boards boardId chatID post with ⟨evs, e⟩
      rw [hsn] at he
      simp only at he
      subst he
      cases e <;> exact ⟨[Event.post chatID text], by simp [Event.isPost]⟩
    · exact ⟨[], by simp⟩

/-- C10. Stop-signal checkpoint.  At the head of a loop iteration of a worker
whose quit channel is open: if a stop signal is pending, the worker consumes
it, closes the channel and returns nil without sleeping, fetching or notifying,
and performs no further iteration whatever inputs remain; if none is pending,
the channel is left as it is and the worker performs exactly one delay, then
one fetch, then at most one notification, and when it keeps looping the next
thing it does is the same check on the same channel. -/
theorem stop_checkpoint (boards : Registry) (boardId token : String) (chatID : Int)
    (quit : Chan) (s : LoopState) (inp : TickInput) (rest : List TickInput)
    (hopen : quit.closed = false) :
    (quit.buf ≠ [] →
      loopIter boards boardId token chatID quit s inp =
        ⟨{ quit with buf := quit.buf.tail, closed := true }, [], .returned none⟩ ∧
      workerLoop boards boardId token chatID quit s (inp :: rest) =
        ([[]], { quit with buf := quit.buf.tail, closed := true }, .returned none)) ∧
    (quit.buf = [] →
      (loopIter boards boardId token chatID quit s inp).quit = quit ∧
      (∃ evs, (loopIter boards boardId token chatID quit s inp).events =
          Event.sleep timeToSleep :: Event.fetchWidgets boardId token :: evs ∧
        evs.all Event.isPost = true ∧ evs.length ≤ 1) ∧
      (∀ s1, (loopIter boards boardId token chatID quit s inp).next = .loop s1 →
        workerLoop boards boardId token chatID quit s (inp :: rest) =
          ((loopIter boards boardId token chatID quit s inp).events ::
              (workerLoop boards boardId token chatID quit s1 rest).1,
            (workerLoop boards boardId token chatID quit s1 rest).2))) := by
  constructor
  · intro hbuf
    have h := loopIter_pending boards boardId token chatID quit s inp hopen hbuf
    refine ⟨h, ?_⟩
    simp only [workerLoop, h]
  · intro hbuf
    have h := loopIter_idle boards boardId token chatID quit s inp hopen hbuf
    refine ⟨by rw [h], ?_, ?_⟩
    · rw [h]; exact tickBody_events boards boardId token chatID s inp
    · intro s1 hs1
      have hq : (loopIter boards boardId token chatID quit s inp).quit = quit := by rw [h]
      simp only [workerLoop, hs1, hq]

/-- Witness: a worker with one pending stop signal, and the same worker with none. -/
theorem stop_checkpoint_witness :
    (loopIter [] "b" "t" 7 ⟨[true], 2, false⟩ ⟨false, .nil⟩
        ⟨.body (.slice [1]), .response 200 "200 OK"⟩ =
      ⟨⟨[], 2, true⟩, [], .returned none⟩) ∧
    (loopIter [] "b" "t" 7 ⟨[], 2, false⟩ ⟨false, .nil⟩
        ⟨.body (.slice [1]), .response 200 "200 OK"⟩).quit = ⟨[], 2, false⟩ :=
  ⟨((stop_checkpoint [] "b" "t" 7 ⟨[true], 2, false⟩ ⟨false, .nil⟩
      ⟨.body (.slice [1]), .response 200 "200 OK"⟩ [] rfl).1 (by simp)).1,
   ((stop_checkpoint [] "b" "t" 7 ⟨[], 2, false⟩ ⟨false, .nil⟩
      ⟨.body (.slice [1]), .response 200 "200 OK"⟩ [] rfl).2 rfl).1⟩

/-- C7. Notification failure terminates the worker, and only a failed
notification does.  On a tick whose fetch succeeds with `b`: when the falling
edge holds (flag set, `b` equal to the previous snapshot) the notifier is
invoked once; if it returns an error the worker returns exactly that error
and performs no further tick, and if it returns nil the worker keeps looping
with previous snapshot `b` and flag false; when the falling edge does not hold
the notifier is not invoked and the worker keeps looping with previous
snapshot `b` and flag `differs`. -/
theorem notification_failure_terminates (boards : Registry) (boardId token : String)
    (chatID : Int) (cap : Nat) (s : LoopState) (b : GoBytes) (post : PostResult)
    (rest : List TickInput) :
    ((s.haveChangesBefore = true ∧ haveChangesNow s.widgetsOld b = false) →
      (loopIter boards boardId token chatID ⟨[], cap, false⟩ s ⟨.body b, post⟩).events =
        [Event.sleep timeToSleep, Event.fetchWidgets boardId token] ++
          (sendNotification boards boardId chatID post).1 ∧
      (∀ err, (sendNotification boards boardId chatID post).2 = some err →
        (loopIter boards boardId token chatID ⟨[], cap, false⟩ s ⟨.body b, post⟩).next =
          .returned (some err) ∧
        workerLoop boards boardId token chatID ⟨[], cap, false⟩ s (⟨.body b, post⟩ :: rest) =
          ([[Event.sleep timeToSleep, Event.fetchWidgets boardId token] ++
              (sendNotification boards boardId chatID post).1],
            ⟨[], cap, false⟩, .returned (some err))) ∧
      ((sendNotification boards boardId chatID post).2 = none →
        (loopIter boards boardId token chatID ⟨[], cap, false⟩ s ⟨.body b, post⟩).next =
          .loop ⟨false, b⟩)) ∧
    (¬ (s.haveChangesBefore = true ∧ haveChangesNow s.widgetsOld b = false) →
      (loopIter boards boardId token chatID ⟨[], cap, false⟩ s ⟨.body b, post⟩).events =
        [Event.sleep timeToSleep, Event.fetchWidgets boardId token] ∧
      (loopIter boards boardId token chatID ⟨[], cap, false⟩ s ⟨.body b, post⟩).next =
        .loop ⟨haveChangesNow s.widgetsOld b, b⟩) ∧
    (sendNotification boards boardId chatID post).1.any Event.isPost = true := by
  refine ⟨?_, ?_, ?_⟩
  · rintro ⟨h1, h2⟩
    have hc : (s.haveChangesBefore && !haveChangesNow s.widgetsOld b) = true := by
      simp [h1, h2]
    rcases hsn : sendNotification boards boardId chatID post with ⟨evs, e⟩
    refine ⟨?_, ?_, ?_⟩
    · cases e <;> simp [loopIter_open, tickBody, getWidgets, hc, hsn]
    · intro err he
      simp only at he
      subst he
      have hn : (loopIter boards boardId token chatID ⟨[], cap, false⟩ s ⟨.body b, post⟩).next =
          .returned (some err) := by
        simp [loopIter_open, tickBody, getWidgets, hc, hsn]
      refine ⟨hn, ?_⟩
      simp only [workerLoop, hn]
      simp [loopIter_open, tickBody, getWidgets, hc, hsn]
    · intro he
      simp only at he
      subst he
      simp [loopIter_open, tickBody, getWidgets, hsn, h1, h2]
  · intro h
    have hc : (s.haveChangesBefore && !haveChangesNow s.widgetsOld b) = false := by
      cases hb : s.haveChangesBefore <;> cases hn : haveChangesNow s.widgetsOld b <;>
        simp_all
    simp [loopIter_open, tickBody, getWidgets, hc]
  · simp [sendNotification, sendMessage, Event.isPost]

/-- Witness: a falling edge whose notification fails in transport, and one
whose notification is delivered. -/
theorem notification_failure_terminates_witness :
    (loopIter [("b", ⟨"N", "L", some 0⟩)] "b" "t" 7 ⟨[], 2, false⟩ ⟨true, .slice [1]⟩
        ⟨.body (.slice [1]), .failed "timeout"⟩).next = .returned (some "timeout") ∧
    (loopIter [("b", ⟨"N", "L", some 0⟩)] "b" "t" 7 ⟨[], 2, false⟩ ⟨true, .slice [1]⟩
        ⟨.body (.slice [1]), .response 200 "200 OK"⟩).next = .loop ⟨false, .slice [1]⟩ :=
  ⟨(((notification_failure_terminates [("b", ⟨"N", "L", some 0⟩)] "b" "t" 7 2 ⟨true, .slice [1]⟩
      (.slice [1]) (.failed "timeout") []).1 ⟨rfl, by decide⟩).2.1 "timeout" rfl).1,
   ((notification_failure_terminates [("b", ⟨"N", "L", some 0⟩)] "b" "t" 7 2 ⟨true, .slice [1]⟩
      (.slice [1]) (.response 200 "200 OK") []).1 ⟨rfl, by decide⟩).2.2 rfl⟩

/-! ## Fetch failure -/

theorem step_crashed (w : World) (h : w.crashed = true) (s : Step) : step w s = w := by
  simp [step, h]

theorem runSteps_crashed (steps : List Step) :
    ∀ w : World, w.crashed = true → runSteps w steps = w := by
  induction steps with
  | nil => intro w _; rfl
  | cons s rest ih =>
    intro w h
    simp only [runSteps, List.foldl_cons, step_crashed w h]
    exact ih w h

/-- C6, counterexample.  A looping worker with flag true and previous snapshot
[1] whose fetch fails does not continue with its state unchanged: the
iteration ends in the panic of `getWidgets`, and the process is terminated. -/
theorem fetch_failure_not_skipped :
    (loopIter [] "b" "t" 7 (Chan.make 2) ⟨true, .slice [1]⟩
        ⟨.requestFailed, .response 200 "200 OK"⟩).next = .panicked "Could not make request" ∧
    (loopIter [] "b" "t" 7 (Chan.make 2) ⟨true, .slice [1]⟩
        ⟨.requestFailed, .response 200 "200 OK"⟩).next ≠ .loop ⟨true, .slice [1]⟩ ∧
    (workerStep ⟨[], [Chan.make 2], [⟨"b", "t", 0, 7, ⟨true, .slice [1]⟩, .looping⟩], [], false⟩ 0
        ⟨.requestFailed, .response 200 "200 OK"⟩).crashed = true := by
  refine ⟨rfl, ?_, rfl⟩
  simp [loopIter, Chan.make, tickBody, getWidgets]

/-- C6, amended.  Fetch failure inside the worker loop is fatal.  For every
worker state, if the snapshot request of a tick fails then no notification is
sent on that tick and the iteration ends in the panic "Could not make request"
rather than in the next tick; the worker performs no further iteration, and
the process it runs in is terminated: no later step changes anything. -/
theorem fetch_failure_panics (boards : Registry) (boardId token : String) (chatID : Int)
    (cap : Nat) (s : LoopState) (post : PostResult) (rest : List TickInput) :
    loopIter boards boardId token chatID ⟨[], cap, false⟩ s ⟨.requestFailed, post⟩ =
      ⟨⟨[], cap, false⟩, [Event.sleep timeToSleep, Event.fetchWidgets boardId token],
        .panicked "Could not make request"⟩ ∧
    workerLoop boards boardId token chatID ⟨[], cap, false⟩ s (⟨.requestFailed, post⟩ :: rest) =
      ([[Event.sleep timeToSleep, Event.fetchWidgets boardId token]], ⟨[], cap, false⟩,
        .panicked "Could not make request") ∧
    (∀ (w : World) (i : Nat) (k : Worker),
      w.workers[i]? = some k → k.status = .looping →
      w.chans[k.quit]? = some ⟨[], cap, false⟩ →
      (workerStep w i ⟨.requestFailed, post⟩).crashed = true ∧
      (workerStep w i ⟨.requestFailed, post⟩).workers[i]? =
        some { k with status := .panicked "Could not make request" } ∧
      (workerStep w i ⟨.requestFailed, post⟩).trace =
        w.trace ++ [Event.sleep timeToSleep, Event.fetchWidgets k.boardId k.token] ∧
      ∀ steps, runSteps (workerStep w i ⟨.requestFailed, post⟩) steps =
        workerStep w i ⟨.requestFailed, post⟩) := by
  have h1 : ∀ (bs : Registry) (bid tok : String) (cid : Int),
      loopIter bs bid tok cid ⟨[], cap, false⟩ s ⟨.requestFailed, post⟩ =
      ⟨⟨[], cap, false⟩, [Event.sleep timeToSleep, Event.fetchWidgets bid tok],
        .panicked "Could not make request"⟩ := by
    intro bs bid tok cid
    simp [loopIter, tickBody, getWidgets]
  refine ⟨h1 _ _ _ _, ?_, ?_⟩
  · simp only [workerLoop, h1]
  · intro w i k hk hs hq
    have hlt : i < w.workers.length := by
      rcases Nat.lt_or_ge i w.workers.length with h | h
      · exact h
      · rw [List.getElem?_eq_none h] at hk; cases hk
    have hc : (workerStep w i ⟨.requestFailed, post⟩).crashed = true := by
      simp [workerStep, hk, hs, hq, loopIter, tickBody, getWidgets, Next.isPanic]
    refine ⟨hc, ?_, ?_, fun steps => runSteps_crashed steps _ hc⟩
    · simp [workerStep, hk, hs, hq, loopIter, tickBody, getWidgets, Worker.advance, hlt]
    · simp [workerStep, hk, hs, hq, loopIter, tickBody, getWidgets]

/-- Witness: the process of one looping worker whose fetch fails. -/
theorem fetch_failure_panics_witness :
    (workerStep ⟨[], [⟨[], 2, false⟩], [⟨"b", "t", 0, 7, ⟨true, .slice [1]⟩, .looping⟩], [], false⟩
      0 ⟨.requestFailed, .response 200 "200 OK"⟩).workers[0]? =
      some ⟨"b", "t", 0, 7, ⟨true, .slice [1]⟩, .panicked "Could not make request"⟩ :=
  ((fetch_failure_panics [] "b" "t" 7 2 ⟨true, .slice [1]⟩ (.response 200 "200 OK") []).2.2
    ⟨[], [⟨[], 2, false⟩], [⟨"b", "t", 0, 7, ⟨true, .slice [1]⟩, .looping⟩], [], false⟩
    0 ⟨"b", "t", 0, 7, ⟨true, .slice [1]⟩, .looping⟩ rfl rfl rfl).2.1

/-! ## The registry -/

theorem lookup_boardsAssign_self (r : Registry) (k : String) (b : Board) :
    List.lookup k (boardsAssign r k b) = some b := by
  induction r with
  | nil => simp [boardsAssign, List.lookup]
  | cons e rest ih =>
    obtain ⟨k0, b0⟩ := e
    simp only [boardsAssign]
    split_ifs with h
    · simp [List.lookup]
    · have : (k == k0) = false := by simpa using fun e => h e.symm
      simp [List.lookup, this, ih]

theorem lookup_boardsAssign_ne (r : Registry) (k k1 : String) (b : Board) (hne : k1 ≠ k) :
    List.lookup k1 (boardsAssign r k b) = List.lookup k1 r := by
  induction r with
  | nil =>
    have : (k1 == k) = false := by simpa using hne
    simp [boardsAssign, List.lookup, this]
  | cons e rest ih =>
    obtain ⟨k0, b0⟩ := e
    simp only [boardsAssign]
    split_ifs with h
    · subst h
      have : (k1 == k0) = false := by simpa using hne
      simp [List.lookup, this]
    · cases hk : k1 == k0 <;> simp [List.lookup, hk, ih]

theorem mem_keys_boardsAssign (r : Registry) (k : String) (b : Board) (x : String) :
    x ∈ (boardsAssign r k b).map Prod.fst → x = k ∨ x ∈ r.map Prod.fst := by
  induction r with
  | nil => simp [boardsAssign]
  | cons e rest ih =>
    obtain ⟨k0, b0⟩ := e
    simp only [boardsAssign]
    split_ifs with h
    · subst h; simp
    · simp only [List.map_cons, List.mem_cons]
      rintro (hx | hx)
      · exact Or.inr (Or.inl hx)
      · rcases ih hx with h1 | h1
        · exact Or.inl h1
        · exact Or.inr (Or.inr h1)

theorem nodup_keys_boardsAssign (r : Registry) (k : String) (b : Board)
    (h : (r.map Prod.fst).Nodup) : ((boardsAssign r k b).map Prod.fst).Nodup := by
  induction r with
  | nil => simp [boardsAssign]
  | cons e rest ih =>
    obtain ⟨k0, b0⟩ := e
    simp only [List.map_cons, List.nodup_cons] at h
    simp only [boardsAssign]
    split_ifs with hk
    · subst hk; simpa using h
    · simp only [List.map_cons, List.nodup_cons]
      refine ⟨fun hx => ?_, ih h.2⟩
      rcases mem_keys_boardsAssign rest k b k0 hx with h1 | h1
      · exact hk h1
      · exact h.1 h1

/-! ## Start -/

theorem getBoardID_ok (env : Env) (h : env.BOARD_ID ≠ "") : getBoardID env = .ok env.BOARD_ID := by
  simp [getBoardID, h]

theorem getTokenMiro_ok (env : Env) (h : env.TOKEN_MIRO ≠ "") :
    getTokenMiro env = .ok env.TOKEN_MIRO := by
  simp [getTokenMiro, h]

/-- What `startMonitoringBoard` does, case by case: a missing variable gives an
error and changes nothing; otherwise the metadata is fetched, and the call
returns nil with the entry written and one worker spawned on a fresh channel
exactly when `getBoardName` returns. -/
theorem startMonitoringBoard_cases (env : Env) (resp : BoardResponse) (chatID : Int) (w : World) :
    ((∃ err, (startMonitoringBoard env resp chatID w).1 = .returned (some err)) ↔
      (env.BOARD_ID = "" ∨ env.TOKEN_MIRO = "")) ∧
    ((env.BOARD_ID = "" ∨ env.TOKEN_MIRO = "") → (startMonitoringBoard env resp chatID w).2 = w) ∧
    (env.BOARD_ID ≠ "" → env.TOKEN_MIRO ≠ "" → ∀ name link,
      getBoardName env.BOARD_ID env.TOKEN_MIRO resp = .returned (name, link) →
      startMonitoringBoard env resp chatID w =
        (.returned none,
          { w with
            boards := boardsAssign w.boards env.BOARD_ID ⟨name, link, some w.chans.length⟩
            chans := w.chans ++ [Chan.make 2]
            workers := w.workers ++
              [⟨env.BOARD_ID, env.TOKEN_MIRO, w.chans.length, chatID, ⟨false, .nil⟩, .spawned⟩]
            trace := w.trace ++ [Event.fetchBoard env.BOARD_ID env.TOKEN_MIRO] })) ∧
    (env.BOARD_ID ≠ "" → env.TOKEN_MIRO ≠ "" → ∀ msg,
      getBoardName env.BOARD_ID env.TOKEN_MIRO resp = .panicked msg →
      startMonitoringBoard env resp chatID w =
        (.panicked msg,
          { w with trace := w.trace ++ [Event.fetchBoard env.BOARD_ID env.TOKEN_MIRO] })) := by
  by_cases hb : env.BOARD_ID = ""
  · simp [startMonitoringBoard, getBoardID, hb]
  · by_cases ht : env.TOKEN_MIRO = ""
    · simp [startMonitoringBoard, getBoardID, getTokenMiro, hb, ht]
    · refine ⟨?_, ?_, ?_, ?_⟩
      · simp only [hb, ht, or_self, iff_false, not_exists]
        intro err
        simp only [startMonitoringBoard, getBoardID_ok env hb, getTokenMiro_ok env ht]
        cases getBoardName env.BOARD_ID env.TOKEN_MIRO resp with
        | returned v => simp
        | panicked msg => simp
      · rintro (h | h)
        · exact absurd h hb
        · exact absurd h ht
      · intro _ _ name link hg
        simp [startMonitoringBoard, getBoardID_ok env hb, getTokenMiro_ok env ht, hg]
      · intro _ _ msg hg
        simp [startMonitoringBoard, getBoardID_ok env hb, getTokenMiro_ok env ht, hg]

/-- With both variables set and metadata that `getBoardName` accepts, the entry
of the board id holds the fetched name and link and every other key is
unchanged. -/
theorem startMonitoringBoard_registry (env : Env) (resp : BoardResponse) (chatID : Int)
    (w : World) (hb : env.BOARD_ID ≠ "") (ht : env.TOKEN_MIRO ≠ "") (name link : String)
    (hg : getBoardName env.BOARD_ID env.TOKEN_MIRO resp = .returned (name, link)) :
    (startMonitoringBoard env resp chatID w).1 = .returned none ∧
    List.lookup env.BOARD_ID (startMonitoringBoard env resp chatID w).2.boards =
      some ⟨name, link, some w.chans.length⟩ ∧
    ∀ k, k ≠ env.BOARD_ID →
      List.lookup k (startMonitoringBoard env resp chatID w).2.boards = List.lookup k w.boards := by
  rw [(startMonitoringBoard_cases env resp chatID w).2.2.1 hb ht name link hg]
  exact ⟨rfl, lookup_boardsAssign_self _ _ _, fun k hk => lookup_boardsAssign_ne _ _ _ _ hk⟩

/-- C5. With BOARD_ID and TOKEN_MIRO both set, `startMonitoringBoard` does not
return nil when the metadata response decodes to an object whose "name" is not
a string: the unchecked type assertion in `getBoardName` panics, so the call
panics after the metadata fetch, the registry is unchanged, no channel is
created and no worker is spawned. -/
theorem start_panics_on_metadata_without_name (env : Env) (data : List (String × JsonValue))
    (chatID : Int) (w : World) (hb : env.BOARD_ID ≠ "") (ht : env.TOKEN_MIRO ≠ "")
    (hname : ∀ s, mapIndex data "name" ≠ some (.str s)) :
    startMonitoringBoard env (.decoded data) chatID w =
      (.panicked "interface conversion: interface \x7b\x7d is not string",
        { w with trace := w.trace ++ [Event.fetchBoard env.BOARD_ID env.TOKEN_MIRO] }) ∧
    (startMonitoringBoard env (.decoded data) chatID w).1 ≠ .returned none ∧
    (startMonitoringBoard env (.decoded data) chatID w).2.boards = w.boards ∧
    (startMonitoringBoard env (.decoded data) chatID w).2.workers = w.workers := by
  have hg : getBoardName env.BOARD_ID env.TOKEN_MIRO (.decoded data) =
      .panicked "interface conversion: interface \x7b\x7d is not string" := by
    simp only [getBoardName]
    cases hm : mapIndex data "name" with
    | none => simp [assertString]
    | some v =>
      cases v with
      | str s => exact absurd hm (hname s)
      | null => simp [assertString]
      | bool b => simp [assertString]
      | number n => simp [assertString]
      | composite => simp [assertString]
  have h := (startMonitoringBoard_cases env (.decoded data) chatID w).2.2.2 hb ht _ hg
  rw [h]
  exact ⟨rfl, by simp, rfl, rfl⟩

/-- Witness: the first start command of a process, answered by the error body
of the Miro API (an object without "name"). -/
theorem start_panics_on_metadata_without_name_witness :
    (startMonitoringBoard ⟨"t", "b"⟩
      (.decoded [("status", .number 401), ("message", .str "Invalid token")]) 7 World.init).1 =
      .panicked "interface conversion: interface \x7b\x7d is not string" ∧
    (startMonitoringBoard ⟨"t", "b"⟩
      (.decoded [("status", .number 401), ("message", .str "Invalid token")]) 7 World.init).2.boards
      = [] :=
  have h := start_panics_on_metadata_without_name ⟨"t", "b"⟩
    [("status", .number 401), ("message", .str "Invalid token")] 7 World.init
    (by decide) (by decide) (fun s hs => nomatch (show none = some (JsonValue.str s) from hs))
  ⟨congrArg Prod.fst h.1, h.2.2.1⟩

/-! ## Stop -/

theorem boardsIndex_of_lookup_none (r : Registry) (k : String) (h : List.lookup k r = none) :
    boardsIndex r k = Board.zero := by
  simp [boardsIndex, h]

theorem boardsIndex_of_lookup_some (r : Registry) (k : String) (b : Board)
    (h : List.lookup k r = some b) : boardsIndex r k = b := by
  simp [boardsIndex, h]

theorem chanSend_sent_inv (chans chans1 : List Chan) (ch : Option Nat) (v : Bool)
    (h : chanSend chans ch v = .sent chans1) :
    ∃ i c, ch = some i ∧ chans[i]? = some c ∧ c.closed = false ∧ c.buf.length < c.cap ∧
      chans1 = chans.set i { c with buf := c.buf ++ [v] } := by
  cases ch with
  | none => simp [chanSend] at h
  | some i =>
    simp only [chanSend] at h
    cases hc : chans[i]? with
    | none => simp [hc] at h
    | some c =>
      simp only [hc] at h
      split_ifs at h with h1 h2
      · simp only [Bool.not_eq_true] at h1
        exact ⟨i, c, rfl, hc, h1, h2, (SendResult.sent.inj h).symm⟩

theorem chanSend_closed (chans : List Chan) (i : Nat) (c : Chan) (v : Bool)
    (hc : chans[i]? = some c) (hcl : c.closed = true) :
    chanSend chans (some i) v = .panicked "send on closed channel" := by
  simp [chanSend, hc, hcl]

/-- What a successful `stopMonitoringBoard` has done: BOARD_ID is set, the
channel of the registry entry was open with room in its buffer, one stop
signal was queued on it, and nothing else of the process state changed but the
trace. -/
theorem stopMonitoringBoard_returned_nil (env : Env) (resp : BoardResponse) (chatID : Int)
    (w w1 : World) (h : stopMonitoringBoard env resp chatID w = (.returned none, w1)) :
    env.BOARD_ID ≠ "" ∧
    ∃ i c, (boardsIndex w.boards env.BOARD_ID).StopWorker = some i ∧ w.chans[i]? = some c ∧
      c.closed = false ∧ c.buf.length < c.cap ∧
      w1.chans = w.chans.set i { c with buf := c.buf ++ [true] } ∧
      w1.boards = w.boards ∧ w1.workers = w.workers ∧ w1.crashed = w.crashed := by
  by_cases hb : env.BOARD_ID = ""
  · simp [stopMonitoringBoard, getBoardID, hb] at h
  · refine ⟨hb, ?_⟩
    simp only [stopMonitoringBoard, getBoardID_ok env hb] at h
    cases hs : chanSend w.chans (boardsIndex w.boards env.BOARD_ID).StopWorker true with
    | blocked => simp [hs] at h
    | panicked msg => simp [hs] at h
    | sent chans1 =>
      obtain ⟨i, c, h1, h2, h3, h4, h5⟩ := chanSend_sent_inv _ _ _ _ hs
      refine ⟨i, c, h1, h2, h3, h4, ?_⟩
      simp only [hs] at h
      cases ht : getTokenMiro env with
      | error e => simp [ht] at h
      | ok token =>
        simp only [ht] at h
        cases hg : getBoardName env.BOARD_ID token resp with
        | panicked msg => simp [hg] at h
        | returned v =>
          simp only [hg, Prod.mk.injEq, true_and] at h
          subst h
          exact ⟨h5, rfl, rfl, rfl⟩

/-- C2. For a board id (BOARD_ID set) that has no entry in the registry,
`stopMonitoringBoard` never returns: the send on the nil channel of the zero
`Board` blocks for ever.  It returns no error, and the process state (registry,
channels, workers, trace) is unchanged. -/
theorem stop_unregistered_blocks (env : Env) (resp : BoardResponse) (chatID : Int) (w : World)
    (hb : env.BOARD_ID ≠ "") (hno : List.lookup env.BOARD_ID w.boards = none) :
    stopMonitoringBoard env resp chatID w = (.blocked, w) ∧
    (∀ err, (stopMonitoringBoard env resp chatID w).1 ≠ .returned err) ∧
    (stopMonitoringBoard env resp chatID w).2.boards = w.boards ∧
    (stopMonitoringBoard env resp chatID w).2.chans = w.chans := by
  have h : stopMonitoringBoard env resp chatID w = (.blocked, w) := by
    simp [stopMonitoringBoard, getBoardID_ok env hb, boardsIndex_of_lookup_none _ _ hno,
      Board.zero, chanSend]
  rw [h]
  exact ⟨rfl, by simp, rfl, rfl⟩

/-- Witness: a stop command arriving before any start command. -/
theorem stop_unregistered_blocks_witness :
    stopMonitoringBoard ⟨"t", "b"⟩ (.decoded [("name", .str "N"), ("viewLink", .str "L")]) 7
      World.init = (.blocked, World.init) :=
  (stop_unregistered_blocks ⟨"t", "b"⟩ (.decoded [("name", .str "N"), ("viewLink", .str "L")]) 7
    World.init (by decide) rfl).1

/-- C4. After `stopMonitoringBoard` has returned nil for a registered board id
and the worker bound to the entry has observed the stop signal (it has
returned nil and closed its channel), the entry of the board id is still in
the registry, and a subsequent `stopMonitoringBoard` for the same id panics on
the send to the closed channel instead of returning an error; the process
state is not changed by that second call. -/
theorem second_stop_panics (env : Env) (resp resp2 : BoardResponse) (chatID chatID2 : Int)
    (w w1 : World) (b : Board) (i : Nat) (k : Worker) (inp : TickInput)
    (hreg : List.lookup env.BOARD_ID w.boards = some b)
    (hstop : stopMonitoringBoard env resp chatID w = (.returned none, w1))
    (hk : w1.workers[i]? = some k) (hloop : k.status = .looping)
    (hq : b.StopWorker = some k.quit) :
    (workerStep w1 i inp).workers[i]? = some { k with status := .returned none } ∧
    (workerStep w1 i inp).trace = w1.trace ∧
    (∃ c, (workerStep w1 i inp).chans[k.quit]? = some c ∧ c.closed = true) ∧
    List.lookup env.BOARD_ID (workerStep w1 i inp).boards = some b ∧
    stopMonitoringBoard env resp2 chatID2 (workerStep w1 i inp) =
      (.panicked "send on closed channel", workerStep w1 i inp) := by
  obtain ⟨hb, j, c, h1, h2, h3, h4, h5, h6, h7, h8⟩ :=
    stopMonitoringBoard_returned_nil env resp chatID w w1 hstop
  rw [boardsIndex_of_lookup_some _ _ _ hreg, hq] at h1
  obtain rfl : k.quit = j := Option.some.inj h1
  have hlt : k.quit < w.chans.length := by
    rcases Nat.lt_or_ge k.quit w.chans.length with h | h
    · exact h
    · rw [List.getElem?_eq_none h] at h2; cases h2
  have hilt : i < w1.workers.length := by
    rcases Nat.lt_or_ge i w1.workers.length with h | h
    · exact h
    · rw [List.getElem?_eq_none h] at hk; cases hk
  have hq1 : w1.chans[k.quit]? = some { c with buf := c.buf ++ [true] } := by
    rw [h5]; simp [hlt]
  have hiter : ∀ (bs : Registry),
      loopIter bs k.boardId k.token k.chatID { c with buf := c.buf ++ [true] } k.vars inp =
        ⟨{ c with buf := (c.buf ++ [true]).tail, closed := true }, [], .returned none⟩ :=
    fun bs => loopIter_pending bs _ _ _ _ _ _ h3 (by simp)
  have hw2 : workerStep w1 i inp =
      { w1 with
        chans := w1.chans.set k.quit { c with buf := (c.buf ++ [true]).tail, closed := true }
        workers := w1.workers.set i { k with status := .returned none }
        trace := w1.trace ++ []
        crashed := w1.crashed || false } := by
    simp only [workerStep, hk, hloop, hq1, hiter, Worker.advance, Next.isPanic]
  have hq2 : (workerStep w1 i inp).chans[k.quit]? =
      some { c with buf := (c.buf ++ [true]).tail, closed := true } := by
    rw [hw2, h5]; simp [hlt]
  have hb2 : (workerStep w1 i inp).boards = w.boards := by rw [hw2]; exact h6
  refine ⟨?_, ?_, ⟨_, hq2, rfl⟩, ?_, ?_⟩
  · rw [hw2]; simp [hilt]
  · rw [hw2]; simp
  · rw [hb2]; exact hreg
  · simp only [stopMonitoringBoard, getBoardID_ok env hb, hb2,
      boardsIndex_of_lookup_some _ _ _ hreg, hq, chanSend_closed _ _ _ _ hq2 rfl]

/-- Witness: start, the worker enters its loop, stop, the worker observes the
signal, stop again. -/
theorem second_stop_panics_witness :
    (stopMonitoringBoard ⟨"t", "b"⟩ (.decoded [("name", .str "N"), ("viewLink", .str "L")]) 7
      (runSteps World.init
        [.start ⟨"t", "b"⟩ (.decoded [("name", .str "N"), ("viewLink", .str "L")]) 7,
         .worker 0 ⟨.body (.slice [1]), .response 200 "200 OK"⟩,
         .stop ⟨"t", "b"⟩ (.decoded [("name", .str "N"), ("viewLink", .str "L")]) 7,
         .worker 0 ⟨.body (.slice [1]), .response 200 "200 OK"⟩])).1 =
      .panicked "send on closed channel" :=
  congrArg Prod.fst
    (second_stop_panics ⟨"t", "b"⟩ (.decoded [("name", .str "N"), ("viewLink", .str "L")])
      (.decoded [("name", .str "N"), ("viewLink", .str "L")]) 7 7
      (runSteps World.init
        [.start ⟨"t", "b"⟩ (.decoded [("name", .str "N"), ("viewLink", .str "L")]) 7,
         .worker 0 ⟨.body (.slice [1]), .response 200 "200 OK"⟩])
      (runSteps World.init
        [.start ⟨"t", "b"⟩ (.decoded [("name", .str "N"), ("viewLink", .str "L")]) 7,
         .worker 0 ⟨.body (.slice [1]), .response 200 "200 OK"⟩,
         .stop ⟨"t", "b"⟩ (.decoded [("name", .str "N"), ("viewLink", .str "L")]) 7])
      ⟨"N", "L", some 0⟩ 0 ⟨"b", "t", 0, 7, ⟨false, .slice [1]⟩, .looping⟩
      ⟨.body (.slice [1]), .response 200 "200 OK"⟩ rfl rfl rfl rfl rfl).2.2.2.2

/-! ## Workers per board id -/

theorem workerStep_boards (w : World) (i : Nat) (inp : TickInput) :
    (workerStep w i inp).boards = w.boards := by
  simp only [workerStep]
  split
  · rfl
  · split
    · split <;> rfl
    · split <;> rfl
    · rfl
    · rfl

theorem stopMonitoringBoard_boards (env : Env) (resp : BoardResponse) (chatID : Int) (w : World) :
    (stopMonitoringBoard env resp chatID w).2.boards = w.boards := by
  simp only [stopMonitoringBoard]
  split
  · rfl
  · split
    · rfl
    · rfl
    · split
      · rfl
      · split <;> rfl

theorem startMonitoringBoard_nodup (env : Env) (resp : BoardResponse) (chatID : Int) (w : World)
    (h : (w.boards.map Prod.fst).Nodup) :
    ((startMonitoringBoard env resp chatID w).2.boards.map Prod.fst).Nodup := by
  simp only [startMonitoringBoard]
  split
  · exact h
  · split
    · exact h
    · split
      · exact h
      · exact nodup_keys_boardsAssign _ _ _ h

theorem step_nodup (w : World) (s : Step) (h : (w.boards.map Prod.fst).Nodup) :
    ((step w s).boards.map Prod.fst).Nodup := by
  simp only [step]
  split_ifs
  · exact h
  · cases s with
    | start env resp chatID => exact startMonitoringBoard_nodup env resp chatID w h
    | stop env resp chatID => simpa [stopMonitoringBoard_boards] using h
    | worker i inp => simpa [workerStep_boards] using h

theorem runSteps_nodup (steps : List Step) :
    ∀ w : World, (w.boards.map Prod.fst).Nodup →
      ((runSteps w steps).boards.map Prod.fst).Nodup := by
  induction steps with
  | nil => intro w h; exact h
  | cons s rest ih =>
    intro w h
    simp only [runSteps, List.foldl_cons]
    exact ih _ (step_nodup w s h)

theorem startMonitoringBoard_returned_nil (env : Env) (resp : BoardResponse) (chatID : Int)
    (w : World) (h : (startMonitoringBoard env resp chatID w).1 = .returned none) :
    ∃ name link, startMonitoringBoard env resp chatID w =
      (.returned none,
        { w with
          boards := boardsAssign w.boards env.BOARD_ID ⟨name, link, some w.chans.length⟩
          chans := w.chans ++ [Chan.make 2]
          workers := w.workers ++
            [⟨env.BOARD_ID, env.TOKEN_MIRO, w.chans.length, chatID, ⟨false, .nil⟩, .spawned⟩]
          trace := w.trace ++ [Event.fetchBoard env.BOARD_ID env.TOKEN_MIRO] }) := by
  have hc := startMonitoringBoard_cases env resp chatID w
  by_cases hb : env.BOARD_ID = ""
  · obtain ⟨err, he⟩ := hc.1.2 (Or.inl hb)
    rw [he] at h; cases h
  · by_cases ht : env.TOKEN_MIRO = ""
    · obtain ⟨err, he⟩ := hc.1.2 (Or.inr ht)
      rw [he] at h; cases h
    · cases hg : getBoardName env.BOARD_ID env.TOKEN_MIRO resp with
      | panicked msg =>
        rw [hc.2.2.2 hb ht msg hg] at h; cases h
      | returned v =>
        obtain ⟨name, link⟩ := v
        exact ⟨name, link, hc.2.2.1 hb ht name link hg⟩

/-- C3, counterexample.  Two start commands for the same board id, with the
workers running in between and afterwards, leave two active workers for that
id: both goroutines are inside their loop and neither has been signalled. -/
theorem two_active_workers_after_two_starts :
    activeWorkers
      (runSteps World.init
        [.start ⟨"t", "b"⟩ (.decoded [("name", .str "N"), ("viewLink", .str "L")]) 7,
         .worker 0 ⟨.body (.slice [1]), .response 200 "200 OK"⟩,
         .start ⟨"t", "b"⟩ (.decoded [("name", .str "N"), ("viewLink", .str "L")]) 7,
         .worker 1 ⟨.body (.slice [1]), .response 200 "200 OK"⟩,
         .worker 0 ⟨.body (.slice [1]), .response 200 "200 OK"⟩,
         .worker 1 ⟨.body (.slice [1]), .response 200 "200 OK"⟩]) "b" = 2 ∧
    (runSteps World.init
        [.start ⟨"t", "b"⟩ (.decoded [("name", .str "N"), ("viewLink", .str "L")]) 7,
         .worker 0 ⟨.body (.slice [1]), .response 200 "200 OK"⟩,
         .start ⟨"t", "b"⟩ (.decoded [("name", .str "N"), ("viewLink", .str "L")]) 7,
         .worker 1 ⟨.body (.slice [1]), .response 200 "200 OK"⟩,
         .worker 0 ⟨.body (.slice [1]), .response 200 "200 OK"⟩,
         .worker 1 ⟨.body (.slice [1]), .response 200 "200 OK"⟩]).workers.map
      (fun k => (k.boardId, k.quit, k.status)) =
      [("b", 0, .looping), ("b", 1, .looping)] := by
  constructor <;> rfl

/-- C3, amended.  In every state reachable by start commands, stop commands
and worker steps the registry holds at most one entry per board id; the
active workers of an id are not limited to one: every `startMonitoringBoard`
that returns nil adds exactly one active worker for its board id, on a fresh
channel that the registry entry of the id now points to, and leaves every
worker spawned earlier as it was. -/
theorem registry_one_entry_workers_accumulate :
    (∀ steps, ((runSteps World.init steps).boards.map Prod.fst).Nodup) ∧
    (∀ (env : Env) (resp : BoardResponse) (chatID : Int) (w : World),
      (startMonitoringBoard env resp chatID w).1 = .returned none →
      activeWorkers (startMonitoringBoard env resp chatID w).2 env.BOARD_ID =
        activeWorkers w env.BOARD_ID + 1 ∧
      (∃ k, (startMonitoringBoard env resp chatID w).2.workers = w.workers ++ [k] ∧
        k.boardId = env.BOARD_ID ∧ k.active = true ∧ k.quit = w.chans.length) ∧
      (startMonitoringBoard env resp chatID w).2.chans = w.chans ++ [Chan.make 2] ∧
      (boardsIndex (startMonitoringBoard env resp chatID w).2.boards env.BOARD_ID).StopWorker =
        some w.chans.length) := by
  refine ⟨fun steps => runSteps_nodup steps World.init (by simp [World.init]), ?_⟩
  intro env resp chatID w h
  obtain ⟨name, link, he⟩ := startMonitoringBoard_returned_nil env resp chatID w h
  rw [he]
  refine ⟨?_, ⟨_, rfl, rfl, rfl, rfl⟩, rfl, ?_⟩
  · simp [activeWorkers, List.filter_append, Worker.active]
  · simp [boardsIndex, lookup_boardsAssign_self]

/-- Witness: a second start command for a board id whose worker is looping. -/
theorem registry_one_entry_workers_accumulate_witness :
    activeWorkers
      (startMonitoringBoard ⟨"t", "b"⟩ (.decoded [("name", .str "N"), ("viewLink", .str "L")]) 7
        (runSteps World.init
          [.start ⟨"t", "b"⟩ (.decoded [("name", .str "N"), ("viewLink", .str "L")]) 7,
           .worker 0 ⟨.body (.slice [1]), .response 200 "200 OK"⟩])).2 "b" =
      activeWorkers
        (runSteps World.init
          [.start ⟨"t", "b"⟩ (.decoded [("name", .str "N"), ("viewLink", .str "L")]) 7,
           .worker 0 ⟨.body (.slice [1]), .response 200 "200 OK"⟩]) "b" + 1 :=
  (registry_one_entry_workers_accumulate.2 ⟨"t", "b"⟩
    (.decoded [("name", .str "N"), ("viewLink", .str "L")]) 7
    (runSteps World.init
      [.start ⟨"t", "b"⟩ (.decoded [("name", .str "N"), ("viewLink", .str "L")]) 7,
       .worker 0 ⟨.body (.slice [1]), .response 200 "200 OK"⟩]) rfl).1

/-! ## Command routing -/

/-- C8. Command routing in `tryToHandleMessage`.  For every request body: the
start operation is invoked exactly when the body decodes and its text is
"/start", the stop operation exactly when it is "/stop", the help message
exactly when it is "/help", each with the chat id of the message, each as the
real operation on the current process state, and at most one per request; for
a body that fails to decode and for every other text nothing is invoked, the
process state is unchanged and the handler returns. -/
theorem command_routing (decode : List Byte → Option webhookMessage) (env : Env)
    (resp : BoardResponse) (post : PostResult) (req : List Byte) (w : World) :
    (∀ id, (Command.start, id) ∈ (tryToHandleMessage decode env resp post req w).calls ↔
      ∃ body, decode req = some body ∧ body.Message.Text = "/start" ∧
        body.Message.Chat.ID = id) ∧
    (∀ id, (Command.stop, id) ∈ (tryToHandleMessage decode env resp post req w).calls ↔
      ∃ body, decode req = some body ∧ body.Message.Text = "/stop" ∧
        body.Message.Chat.ID = id) ∧
    (∀ id, (Command.help, id) ∈ (tryToHandleMessage decode env resp post req w).calls ↔
      ∃ body, decode req = some body ∧ body.Message.Text = "/help" ∧
        body.Message.Chat.ID = id) ∧
    (tryToHandleMessage decode env resp post req w).calls.length ≤ 1 ∧
    (∀ body, decode req = some body → body.Message.Text = "/start" →
      tryToHandleMessage decode env resp post req w =
        ⟨[(.start, body.Message.Chat.ID)],
          (startMonitoringBoard env resp body.Message.Chat.ID w).1.discard,
          (startMonitoringBoard env resp body.Message.Chat.ID w).2⟩) ∧
    (∀ body, decode req = some body → body.Message.Text = "/stop" →
      tryToHandleMessage decode env resp post req w =
        ⟨[(.stop, body.Message.Chat.ID)],
          (stopMonitoringBoard env resp body.Message.Chat.ID w).1.discard,
          (stopMonitoringBoard env resp body.Message.Chat.ID w).2⟩) ∧
    (∀ body, decode req = some body → body.Message.Text = "/help" →
      tryToHandleMessage decode env resp post req w =
        ⟨[(.help, body.Message.Chat.ID)], .returned (),
          { w with trace := w.trace ++ (showHelp body.Message.Chat.ID post).1 }⟩) ∧
    ((decode req = none ∨
        ∃ body, decode req = some body ∧ body.Message.Text ≠ "/start" ∧
          body.Message.Text ≠ "/stop" ∧ body.Message.Text ≠ "/help") →
      tryToHandleMessage decode env resp post req w = ⟨[], .returned (), w⟩) := by
  cases hd : decode req with
  | none => simp [tryToHandleMessage, hd]
  | some body =>
    by_cases h0 : body.Message.Text = ""
    · simp [tryToHandleMessage, hd, h0]
    · by_cases h1 : body.Message.Text = "/start"
      · simp [tryToHandleMessage, hd, h1, eq_comm]
      · by_cases h2 : body.Message.Text = "/stop"
        · simp [tryToHandleMessage, hd, h2, eq_comm]
        · by_cases h3 : body.Message.Text = "/help"
          · simp [tryToHandleMessage, hd, h3, eq_comm]
          · simp [tryToHandleMessage, hd, h0, h1, h2, h3]

/-- Witness: a `/stop` message from chat 7, and a body that does not decode. -/
theorem command_routing_witness :
    tryToHandleMessage (fun _ => some ⟨{ Text := "/stop", Chat := ⟨7⟩ }⟩) ⟨"t", "b"⟩
        .requestFailed (.response 200 "200 OK") [] World.init =
      ⟨[(.stop, 7)], .blocked, World.init⟩ ∧
    tryToHandleMessage (fun _ => none) ⟨"t", "b"⟩ .requestFailed (.response 200 "200 OK") []
        World.init = ⟨[], .returned (), World.init⟩ :=
  ⟨(command_routing (fun _ => some ⟨{ Text := "/stop", Chat := ⟨7⟩ }⟩) ⟨"t", "b"⟩
      .requestFailed (.response 200 "200 OK") [] World.init).2.2.2.2.2.1 _ rfl rfl,
   (command_routing (fun _ => none) ⟨"t", "b"⟩ .requestFailed (.response 200 "200 OK") []
      World.init).2.2.2.2.2.2.2 (Or.inl rfl)⟩

end MiroBot
